import Mathlib

/-!
Verification development for the city-distance client library
(`src/src/index.ts`).  Strings are shallowly embedded as `List Char`,
JSON values (the `any`-typed axios payloads) as an inductive `JSON`
type with JavaScript truthiness, and the error/retry pipeline as pure
functions over explicit error records.
-/

namespace CDS

/-- JavaScript strings, embedded as lists of characters. -/
abbrev Str := List Char

/-- The literal `"http://"`. -/
def httpP : Str := "http://".toList

/-- The literal `"https://"`. -/
def httpsP : Str := "https://".toList

/-- The literal `"www."`. -/
def wwwP : Str := "www.".toList

/-- Embeds the first replace of `normalizeURL` (index.ts line 113):
`url.replace(/^(https?:\/\/)?(www\.)?/, '')` — strip an optional leading
scheme (`https://` tried first, as the greedy regex does), then an
optional leading `www.`. -/
def stripPrefixes (url : Str) : Str :=
  let afterScheme :=
    if httpsP.isPrefixOf url then url.drop 8
    else if httpP.isPrefixOf url then url.drop 7
    else url
  if wwwP.isPrefixOf afterScheme then afterScheme.drop 4 else afterScheme

/-- Embeds the second replace of `normalizeURL` (index.ts line 114):
`.replace(/\/$/, '')` — drop a single trailing `'/'` when present. -/
def stripTrailingSlash (s : Str) : Str :=
  if s.getLast? = some '/' then s.dropLast else s

/-- Embeds `CDSClient.normalizeURL` (index.ts lines 110–122): strip
scheme/`www.`/one trailing slash, then prepend `https://` when the
result starts with neither `http://` nor `https://`. -/
def normalizeURL (url : Str) : Str :=
  let normalized := stripTrailingSlash (stripPrefixes url)
  if !(httpP.isPrefixOf normalized) && !(httpsP.isPrefixOf normalized) then
    httpsP ++ normalized
  else normalized

/-- JSON / JavaScript values as carried in axios request and response
bodies.  Numbers are embedded as rationals. -/
inductive JSON where
  | null
  | bool (b : Bool)
  | num (q : ℚ)
  | str (s : Str)
  | arr (elems : List JSON)
  | obj (fields : List (Str × JSON))

/-- JavaScript truthiness of a value: `0`, `""`, `false` and `null` are
falsy, every object and array is truthy. -/
def truthy : JSON → Bool
  | .null => false
  | .bool b => b
  | .num q => if q = 0 then false else true
  | .str s => if s = [] then false else true
  | .arr _ => true
  | .obj _ => true

/-- First binding of a key in an object's field list. -/
def lookupField : List (Str × JSON) → Str → Option JSON
  | [], _ => none
  | (k, v) :: rest, key => if k = key then some v else lookupField rest key

/-- JavaScript optional property access `x?.key`: a field of an object,
`undefined` (here `none`) for every non-object or missing field. -/
def getField : JSON → Str → Option JSON
  | .obj fs, key => lookupField fs key
  | _, _ => none

/-- JavaScript `a || b` where `a` may be `undefined`: `a` when defined
and truthy, otherwise `b`. -/
def jsOr (a : Option JSON) (b : JSON) : JSON :=
  match a with
  | some v => if truthy v then v else b
  | none => b

/-- The key `"distanceKm"`. -/
def kDistanceKm : Str := "distanceKm".toList

/-- The key `"data"`. -/
def kData : Str := "data".toList

/-- The key `"error"`. -/
def kError : Str := "error".toList

/-- The key `"message"`. -/
def kMessage : Str := "message".toList

/-- Embeds the response unwrapping of `calculateDistance` (index.ts
line 205): `return data.distanceKm || data.data || data;`. -/
def calculateDistanceValue (data : JSON) : JSON :=
  jsOr (getField data kDistanceKm) (jsOr (getField data kData) data)

/-- `truthy` lifted through the possibly-`undefined` result of a
property access. -/
def truthyOpt : Option JSON → Bool
  | some v => truthy v
  | none => false

/-- An axios error response: HTTP status and decoded body. -/
structure RespM where
  status : Nat
  data : JSON

/-- An `AxiosError` as seen by the interceptor and the retry condition:
`response` when the server answered, `request` when the request went
out without an answer, the transport `message`, and the verdict of the
library predicate `axiosRetry.isNetworkOrIdempotentRequestError`
(library code, taken as an input). -/
structure AxiosErrorM where
  response : Option RespM
  request : Option JSON
  message : Str
  isNetworkOrIdempotent : Bool

/-- A `CDSError` (index.ts lines 34–43): message (a JavaScript value),
optional HTTP status, optional raw body / request context. -/
structure CDSError where
  message : JSON
  statusCode : Option Nat
  response : Option JSON

/-- Decimal digits of a natural number. -/
def natChars (n : Nat) : Str := Nat.toDigits 10 n

/-- Decimal rendering of an integer. -/
def intChars (i : Int) : Str :=
  if i < 0 then '-' :: natChars i.natAbs else natChars i.natAbs

/-- JavaScript string coercion as used by the template literal in the
400 branch of `handleError`.  Strings, booleans and `null` are exact;
integers render in decimal; non-integral numbers, arrays and objects
never reach a message position in this client, so their rendering is a
simple canonical form. -/
def jsToStr : JSON → Str
  | .str s => s
  | .bool true => "true".toList
  | .bool false => "false".toList
  | .null => "null".toList
  | .num q => if q.den = 1 then intChars q.num
              else intChars q.num ++ '/' :: natChars q.den
  | .arr _ => []
  | .obj _ => "[object Object]".toList

/-- The fixed message of the 404 branch. -/
def msg404 : Str := "Resource not found. Check the endpoint URL.".toList

/-- The fixed message of the 401 branch. -/
def msg401 : Str := "Authentication failed. Check your credentials.".toList

/-- The fixed message of the 403 branch. -/
def msg403 : Str := "Access forbidden. You do not have permission.".toList

/-- The fixed message of the 429 branch. -/
def msg429 : Str := "Rate limit exceeded. Please try again later.".toList

/-- The fixed message of the 500/502/503/504 branches. -/
def msg5xx : Str := "Server error. Please try again later.".toList

/-- The text prepended by the 400 branch. -/
def msg400P : Str := "Invalid request: ".toList

/-- The message of the no-response branch. -/
def msgNoResponse : Str := "No response from server. Check your network connection.".toList

/-- Embeds `let message = data?.error || data?.message || error.message`
(index.ts line 133). -/
def serverMessage (data : JSON) (fallback : Str) : JSON :=
  jsOr (getField data kError) (jsOr (getField data kMessage) (.str fallback))

/-- Embeds the `switch (status)` of `handleError` (index.ts lines
136–158): fixed texts for the mapped statuses, `"Invalid request: "`
prepended for 400, the incoming message otherwise. -/
def statusMessage (status : Nat) (message : JSON) : JSON :=
  if status = 400 then .str (msg400P ++ jsToStr message)
  else if status = 401 then .str msg401
  else if status = 403 then .str msg403
  else if status = 404 then .str msg404
  else if status = 429 then .str msg429
  else if status = 500 ∨ status = 502 ∨ status = 503 ∨ status = 504 then .str msg5xx
  else message

/-- Embeds `CDSClient.handleError` (index.ts lines 127–172): response
present → classified server error; request present → network error with
the request context as raw body; otherwise the setup error text. -/
def handleError (e : AxiosErrorM) : CDSError :=
  match e.response with
  | some r => ⟨statusMessage r.status (serverMessage r.data e.message), some r.status, some r.data⟩
  | none =>
    match e.request with
    | some req => ⟨.str msgNoResponse, none, some req⟩
    | none => ⟨.str e.message, none, none⟩

/-- The retryable status list of index.ts line 88. -/
def retryableStatuses : List Nat := [408, 429, 500, 502, 503, 504]

/-- Embeds the `retryCondition` passed to `axiosRetry` (index.ts lines
81–92). -/
def retryCondition (e : AxiosErrorM) : Bool :=
  if e.isNetworkOrIdempotent then true
  else
    match e.response with
    | some r => retryableStatuses.contains r.status
    | none => false

/-- Modelled from the spec: `axiosRetry.exponentialDelay` is library
code not under `src/`; the spec fixes the backoff before retry number
`attempt` (1-based) as base delay × 2^(attempt−1), jitter omitted. -/
def backoffDelay (base attempt : Nat) : Nat := base * 2 ^ (attempt - 1)

/-- Outcome of one HTTP attempt: a 2xx body, or an axios error. -/
inductive Outcome where
  | ok (v : JSON)
  | err (e : AxiosErrorM)

/-- The observable trace of one client call through the retry pipeline:
how many attempts ran, the backoff delays slept between them, and the
final result (a body, or the `CDSError` thrown by the interceptor). -/
structure RunResult where
  attemptsMade : Nat
  delays : List Nat
  result : JSON ⊕ CDSError

/-- Modelled from the spec: the retry loop of the `axios-retry` library
(not under `src/`), driving the `retryCondition` of index.ts.  Attempt
`i` runs; on success the call resolves; on a retryable error with
retries remaining the loop sleeps `backoffDelay 100 (i+1)` and retries;
otherwise the error is classified by `handleError` and thrown. -/
def runFrom (attempts : Nat → Outcome) : Nat → Nat → RunResult
  | i, 0 =>
    match attempts i with
    | .ok v => ⟨1, [], .inl v⟩
    | .err e => ⟨1, [], .inr (handleError e)⟩
  | i, r + 1 =>
    match attempts i with
    | .ok v => ⟨1, [], .inl v⟩
    | .err e =>
      if retryCondition e then
        let rest := runFrom attempts (i + 1) r
        ⟨rest.attemptsMade + 1, backoffDelay 100 (i + 1) :: rest.delays, rest.result⟩
      else ⟨1, [], .inr (handleError e)⟩

/-- A whole client call: first attempt plus up to `maxRetries` retries. -/
def runWithRetries (attempts : Nat → Outcome) (maxRetries : Nat) : RunResult :=
  runFrom attempts 0 maxRetries

/-- Embeds `healthCheck` (index.ts lines 211–218): `true` on a resolved
call, `false` on any thrown `CDSError`. -/
def healthCheck (attempts : Nat → Outcome) (maxRetries : Nat) : Bool :=
  match (runWithRetries attempts maxRetries).result with
  | .inl _ => true
  | .inr _ => false

/-- The validation message of `getSuggestions`. -/
def msgQueryShort : Str := "Query must be at least 2 characters long".toList

/-- The validation message of `calculateDistance`. -/
def msgCityRequired : Str := "Both city IDs are required".toList

/-- Embeds the entry of `getSuggestions` (index.ts lines 177–184):
`if (!query || query.length < 2) throw new CDSError(...)`, else the GET
`/suggestions` request (carrying `q`) is issued — `inr` is the request
that goes on the wire, `inl` the error thrown before any network call.
An absent argument (`none`) is JavaScript `undefined`, which is falsy. -/
def getSuggestionsDispatch (query : Option Str) : CDSError ⊕ Str :=
  match query with
  | none => .inl ⟨.str msgQueryShort, none, none⟩
  | some q =>
    if q = [] ∨ q.length < 2 then .inl ⟨.str msgQueryShort, none, none⟩
    else .inr q

/-- Embeds the entry of `calculateDistance` (index.ts lines 193–201):
`if (!city1Id || !city2Id) throw new CDSError(...)`, else the POST
`/distance` request carrying both identifiers is issued. -/
def calculateDistanceDispatch (city1Id city2Id : Str) : CDSError ⊕ (Str × Str) :=
  if city1Id = [] ∨ city2Id = [] then .inl ⟨.str msgCityRequired, none, none⟩
  else .inr (city1Id, city2Id)

/-- The constructor's configuration input (index.ts lines 4–10):
optional fields are JavaScript optionals. -/
structure CDSClientConfig where
  baseURL : Str
  username : Option Str
  password : Option Str
  timeout : Option ℚ
  retries : Option ℚ

/-- The resolved `Required<CDSClientConfig>` held by the client. -/
structure ResolvedConfig where
  baseURL : Str
  username : Str
  password : Str
  timeout : ℚ
  retries : ℚ

/-- JavaScript `v || d` on an optional string. -/
def orDefaultStr (v : Option Str) (d : Str) : Str :=
  match v with
  | some s => if s = [] then d else s
  | none => d

/-- JavaScript `v || d` on an optional number. -/
def orDefaultNum (v : Option ℚ) (d : ℚ) : ℚ :=
  match v with
  | some q => if q = 0 then d else q
  | none => d

/-- Embeds the config resolution of the constructor (index.ts lines
51–57). -/
def resolveConfig (c : CDSClientConfig) : ResolvedConfig :=
  ⟨normalizeURL c.baseURL, orDefaultStr c.username [], orDefaultStr c.password [],
    orDefaultNum c.timeout 30000, orDefaultNum c.retries 3⟩

/-- The optional scheme part of a caller-supplied base URL. -/
inductive SchemeOpt where
  | noScheme
  | http
  | https

/-- The characters of a scheme option. -/
def SchemeOpt.chars : SchemeOpt → Str
  | .noScheme => []
  | .http => httpP
  | .https => httpsP

/-- A base URL assembled from an optional scheme, an optional `www.`,
a core, and an optional single trailing slash. -/
def buildURL (sc : SchemeOpt) (www slash : Bool) (core : Str) : Str :=
  sc.chars ++ (if www then wwwP else []) ++ core ++ (if slash then ['/'] else [])

/-- The string payload of a `CDSError` message, when it is a string. -/
def msgChars (e : CDSError) : Option Str :=
  match e.message with
  | .str s => some s
  | _ => none

/-- The numeric payload of a JSON value, when it is a number. -/
def numValue : JSON → Option ℚ
  | .num q => some q
  | _ => none

theorem isPrefixOf_append_self (p t : Str) : p.isPrefixOf (p ++ t) = true :=
  List.isPrefixOf_iff_prefix.mpr (List.prefix_append _ _)

theorem drop_eight_https (t : Str) : (httpsP ++ t).drop 8 = t := rfl

theorem drop_seven_http (t : Str) : (httpP ++ t).drop 7 = t := rfl

theorem drop_four_www (t : Str) : (wwwP ++ t).drop 4 = t := rfl

theorem https_not_pre_http (t : Str) : httpsP.isPrefixOf (httpP ++ t) = false := rfl

theorem http_not_pre_https (t : Str) : httpP.isPrefixOf (httpsP ++ t) = false := rfl

theorem https_not_pre_www (t : Str) : httpsP.isPrefixOf (wwwP ++ t) = false := rfl

theorem http_not_pre_www (t : Str) : httpP.isPrefixOf (wwwP ++ t) = false := rfl

theorem not_isPrefixOf_of_mem (p core : Str) (hp : '/' ∈ p) (hc : '/' ∉ core) :
    p.isPrefixOf core = false := by
  cases h : p.isPrefixOf core with
  | false => rfl
  | true => exact absurd (( List.isPrefixOf_iff_prefix.mp h).subset hp) hc

theorem not_isPrefixOf_concat_of_mem_dropLast (p core : Str)
    (hp : '/' ∈ p.dropLast) (hc : '/' ∉ core) :
    p.isPrefixOf (core ++ ['/']) = false := by
  cases h : p.isPrefixOf (core ++ ['/']) with
  | false => rfl
  | true =>
    rcases List.prefix_concat_iff.mp ( List.isPrefixOf_iff_prefix.mp h) with heq | hpre
    · rw [heq, List.dropLast_concat] at hp
      exact (hc hp).elim
    · exact (hc (hpre.subset ((List.dropLast_sublist p).subset hp))).elim

theorem not_isPrefixOf_concat_of_getLast (p core : Str)
    (h1 : p.isPrefixOf core = false) (h2 : p.getLast? ≠ some '/') :
    p.isPrefixOf (core ++ ['/']) = false := by
  cases h : p.isPrefixOf (core ++ ['/']) with
  | false => rfl
  | true =>
    rcases List.prefix_concat_iff.mp ( List.isPrefixOf_iff_prefix.mp h) with heq | hpre
    · exact (h2 (heq ▸ List.getLast?_concat core)).elim
    · rw [← List.isPrefixOf_iff_prefix, h1] at hpre
      exact hpre.symm

theorem stripTrailingSlash_concat (core : Str) :
    stripTrailingSlash (core ++ ['/']) = core := by
  simp [stripTrailingSlash, List.getLast?_concat, List.dropLast_concat]

theorem stripTrailingSlash_of_no_slash (core : Str) (hc : '/' ∉ core) :
    stripTrailingSlash core = core := by
  rw [stripTrailingSlash, if_neg]
  intro h
  exact hc (List.mem_of_mem_getLast? h)

/-- On any base URL assembled from an optional scheme, an optional
`www.`, a slash-free core and an optional single trailing slash,
`normalizeURL` yields exactly `https://` followed by the core. -/
theorem normalizeURL_buildURL (sc : SchemeOpt) (www slash : Bool) (core : Str)
    (hslash : '/' ∉ core) (hwww : wwwP.isPrefixOf core = false) :
    normalizeURL (buildURL sc www slash core) = httpsP ++ core := by
  have h1 : httpsP.isPrefixOf core = false :=
    not_isPrefixOf_of_mem _ _ (by decide) hslash
  have h2 : httpP.isPrefixOf core = false :=
    not_isPrefixOf_of_mem _ _ (by decide) hslash
  have h3 : httpsP.isPrefixOf (core ++ ['/']) = false :=
    not_isPrefixOf_concat_of_mem_dropLast _ _ (by decide) hslash
  have h4 : httpP.isPrefixOf (core ++ ['/']) = false :=
    not_isPrefixOf_concat_of_mem_dropLast _ _ (by decide) hslash
  have h5 : wwwP.isPrefixOf (core ++ ['/']) = false :=
    not_isPrefixOf_concat_of_getLast _ _ hwww (by decide)
  have h6 : stripTrailingSlash (core ++ ['/']) = core := stripTrailingSlash_concat core
  have h7 : stripTrailingSlash core = core := stripTrailingSlash_of_no_slash core hslash
  cases sc <;> cases www <;> cases slash <;>
    simp [buildURL, SchemeOpt.chars, normalizeURL, stripPrefixes, List.append_assoc,
      isPrefixOf_append_self, drop_eight_https, drop_seven_http, drop_four_www,
      https_not_pre_http, http_not_pre_https, https_not_pre_www, http_not_pre_www,
      h1, h2, h3, h4, h5, hwww, h6, h7]

/-- Claim C1 fails as stated: the claim quantifies over every baseURL
string, but `normalizeURL` strips only a single trailing slash, so the
input `"https://example.com//"` normalizes to `"https://example.com/"`,
which still ends with `'/'`. -/
theorem normalizeURL_claim_cex :
    normalizeURL "https://example.com//".toList = "https://example.com/".toList ∧
    (normalizeURL "https://example.com//".toList).getLast? = some '/' := by
  decide

/-- Claim C1 (amended): for every baseURL assembled from an optional
scheme (`http://` or `https://`), an optional `www.`, a nonempty core
containing no `'/'` and not starting with `www.`, and an optional
single trailing slash, the normalized URL is exactly `https://`
followed by the core: it starts with `https://`, does not end with
`'/'`, and has no `www.` segment immediately after the scheme. -/
theorem normalizeURL_normalizes (sc : SchemeOpt) (www slash : Bool) (core : Str)
    (hne : core ≠ []) (hslash : '/' ∉ core) (hwww : wwwP.isPrefixOf core = false) :
    normalizeURL (buildURL sc www slash core) = httpsP ++ core ∧
    httpsP.isPrefixOf (normalizeURL (buildURL sc www slash core)) = true ∧
    (normalizeURL (buildURL sc www slash core)).getLast? ≠ some '/' ∧
    (httpsP ++ wwwP).isPrefixOf (normalizeURL (buildURL sc www slash core)) = false := by
  have heq := normalizeURL_buildURL sc www slash core hslash hwww
  refine ⟨heq, ?_, ?_, ?_⟩
  · rw [heq]
    exact isPrefixOf_append_self _ _
  · rw [heq]
    intro h
    rw [List.getLast?_append] at h
    cases hcl : core.getLast? with
    | none => exact hne (List.getLast?_eq_none_iff.mp hcl)
    | some a =>
      rw [hcl] at h
      simp only [Option.or_some] at h
      rw [h] at hcl
      exact hslash (List.mem_of_mem_getLast? hcl)
  · rw [heq]
    cases h : (httpsP ++ wwwP).isPrefixOf (httpsP ++ core) with
    | false => rfl
    | true =>
      have hpre := List.isPrefixOf_iff_prefix.mp h
      have hpre2 := (List.prefix_append_right_inj httpsP).mp hpre
      rw [← List.isPrefixOf_iff_prefix, hwww] at hpre2
      exact hpre2.symm

/-- Witness for the amended claim C1 at the concrete input
`https://www.example.com/`. -/
theorem normalizeURL_normalizes_witness :
    ("example.com".toList ≠ [] ∧ '/' ∉ "example.com".toList ∧
      wwwP.isPrefixOf "example.com".toList = false) ∧
    normalizeURL (buildURL .https true true "example.com".toList) =
      httpsP ++ "example.com".toList :=
  ⟨by decide,
    (normalizeURL_normalizes .https true true "example.com".toList
      (by decide) (by decide) (by decide)).1⟩

/-- Claim C2 fails as stated: a 2xx body `{"distanceKm": 0}` has the
`distanceKm` field present, yet `calculateDistance` does not return
`0` — the number `0` is falsy, so the `||` chain falls through and the
raw body (an object) is returned instead. -/
theorem calculateDistanceValue_claim_cex :
    numValue (calculateDistanceValue (JSON.obj [(kDistanceKm, JSON.num 0)])) ≠ some 0 ∧
    calculateDistanceValue (JSON.obj [(kDistanceKm, JSON.num 0)]) =
      JSON.obj [(kDistanceKm, JSON.num 0)] := by
  constructor <;>
    simp +decide [calculateDistanceValue, jsOr, getField, lookupField, truthy, numValue]

/-- Claim C2 (amended): for every 2xx response body to
`calculateDistance`, the returned value is determined by an ordered
JavaScript-truthiness check: the body's `distanceKm` field if present
and truthy, else the body's `data` field if present and truthy, else
the raw response body itself; in particular `{"distanceKm": 1234.5}`
yields `1234.5`, `{"data": 1234.5}` yields `1234.5`, and a bare body
`1234.5` yields `1234.5`. -/
theorem calculateDistanceValue_spec (body : JSON) :
    ((∀ v, getField body kDistanceKm = some v → truthy v = true →
      calculateDistanceValue body = v) ∧
    (truthyOpt (getField body kDistanceKm) = false →
      ∀ v, getField body kData = some v → truthy v = true →
        calculateDistanceValue body = v) ∧
    (truthyOpt (getField body kDistanceKm) = false →
      truthyOpt (getField body kData) = false →
      calculateDistanceValue body = body)) ∧
    calculateDistanceValue (JSON.obj [(kDistanceKm, JSON.num (1234.5 : ℚ))]) =
      JSON.num (1234.5 : ℚ) ∧
    calculateDistanceValue (JSON.obj [(kData, JSON.num (1234.5 : ℚ))]) =
      JSON.num (1234.5 : ℚ) ∧
    calculateDistanceValue (JSON.num (1234.5 : ℚ)) = JSON.num (1234.5 : ℚ) := by
  refine ⟨⟨?_, ?_, ?_⟩, ?_, ?_, ?_⟩
  · intro v hv ht
    simp [calculateDistanceValue, jsOr, hv, ht]
  · intro h0 v hv ht
    cases hd : getField body kDistanceKm with
    | none => simp [calculateDistanceValue, jsOr, hd, hv, ht]
    | some w =>
      rw [hd] at h0
      simp only [truthyOpt] at h0
      simp [calculateDistanceValue, jsOr, hd, h0, hv, ht]
  · intro h0 h1
    cases hd : getField body kDistanceKm with
    | none =>
      cases hd2 : getField body kData with
      | none => simp [calculateDistanceValue, jsOr, hd, hd2]
      | some w =>
        rw [hd2] at h1
        simp only [truthyOpt] at h1
        simp [calculateDistanceValue, jsOr, hd, hd2, h1]
    | some w =>
      rw [hd] at h0
      simp only [truthyOpt] at h0
      cases hd2 : getField body kData with
      | none => simp [calculateDistanceValue, jsOr, hd, hd2, h0]
      | some w2 =>
        rw [hd2] at h1
        simp only [truthyOpt] at h1
        simp [calculateDistanceValue, jsOr, hd, hd2, h0, h1]
  · simp +decide [calculateDistanceValue, jsOr, getField, lookupField, truthy,
      show (1234.5 : ℚ) ≠ 0 from by norm_num]
  · simp +decide [calculateDistanceValue, jsOr, getField, lookupField, truthy,
      show (1234.5 : ℚ) ≠ 0 from by norm_num]
  · simp [calculateDistanceValue, jsOr, getField, truthy,
      show (1234.5 : ℚ) ≠ 0 from by norm_num]

/-- Witness for the amended claim C2: a truthy `data` field with a
falsy (absent) `distanceKm` field is returned. -/
theorem calculateDistanceValue_spec_witness :
    calculateDistanceValue (JSON.obj [(kData, JSON.num (1234.5 : ℚ))]) =
      JSON.num (1234.5 : ℚ) :=
  (calculateDistanceValue_spec (JSON.obj [(kData, JSON.num (1234.5 : ℚ))])).1.2.1
    (by simp +decide [getField, lookupField, truthyOpt])
    (JSON.num (1234.5 : ℚ))
    (by simp +decide [getField, lookupField])
    (by simp [truthy, show (1234.5 : ℚ) ≠ 0 from by norm_num])

/-- Claim C3 fails as stated: the claim gives the server-supplied
error field priority over the per-status rules, but the `switch` in
`handleError` overwrites the message for every mapped status — a 404
response with body `{"error": "custom"}` yields the fixed 404 text,
not `"custom"`. -/
theorem handleError_priority_cex :
    msgChars (handleError ⟨some ⟨404, JSON.obj [(kError, JSON.str "custom".toList)]⟩,
      none, "transport".toList, false⟩) ≠ some "custom".toList ∧
    msgChars (handleError ⟨some ⟨404, JSON.obj [(kError, JSON.str "custom".toList)]⟩,
      none, "transport".toList, false⟩) = some msg404 := by
  decide

/-- Claim C3 (amended): for every failed call where a non-2xx response
was received, the ClientError has statusCode equal to the response
status; the fixed per-status rules take precedence for the mapped
statuses (401/403/404/429/500/502/503/504 fixed texts, 400 prefixed);
for every unmapped status the message is the server-supplied
error/message chain, which yields the server-supplied field whenever
that field is present and truthy and the generic transport error text
when both fields are absent. -/
theorem handleError_message_priority (st : Nat) (data : JSON) (req : Option JSON)
    (emsg : Str) (nf : Bool) :
    (handleError ⟨some ⟨st, data⟩, req, emsg, nf⟩).statusCode = some st ∧
    (handleError ⟨some ⟨401, data⟩, req, emsg, nf⟩).message = .str msg401 ∧
    (handleError ⟨some ⟨403, data⟩, req, emsg, nf⟩).message = .str msg403 ∧
    (handleError ⟨some ⟨404, data⟩, req, emsg, nf⟩).message = .str msg404 ∧
    (handleError ⟨some ⟨429, data⟩, req, emsg, nf⟩).message = .str msg429 ∧
    (handleError ⟨some ⟨500, data⟩, req, emsg, nf⟩).message = .str msg5xx ∧
    (handleError ⟨some ⟨502, data⟩, req, emsg, nf⟩).message = .str msg5xx ∧
    (handleError ⟨some ⟨503, data⟩, req, emsg, nf⟩).message = .str msg5xx ∧
    (handleError ⟨some ⟨504, data⟩, req, emsg, nf⟩).message = .str msg5xx ∧
    (handleError ⟨some ⟨400, data⟩, req, emsg, nf⟩).message =
      .str (msg400P ++ jsToStr (serverMessage data emsg)) ∧
    (st ∉ ([400, 401, 403, 404, 429, 500, 502, 503, 504] : List Nat) →
      (handleError ⟨some ⟨st, data⟩, req, emsg, nf⟩).message = serverMessage data emsg) ∧
    (∀ v, getField data kError = some v → truthy v = true →
      serverMessage data emsg = v) ∧
    (getField data kError = none → getField data kMessage = none →
      serverMessage data emsg = .str emsg) := by
  refine ⟨rfl, ?_, ?_, ?_, ?_, ?_, ?_, ?_, ?_, ?_, ?_, ?_, ?_⟩
  · simp [handleError, statusMessage]
  · simp [handleError, statusMessage]
  · simp [handleError, statusMessage]
  · simp [handleError, statusMessage]
  · simp [handleError, statusMessage]
  · simp [handleError, statusMessage]
  · simp [handleError, statusMessage]
  · simp [handleError, statusMessage]
  · simp [handleError, statusMessage]
  · intro h
    simp only [List.mem_cons, List.mem_singleton, not_or] at h
    obtain ⟨h400, h401, h403, h404, h429, h500, h502, h503, h504⟩ := h
    simp [handleError, statusMessage, h400, h401, h403, h404, h429, h500, h502, h503, h504]
  · intro v hv ht
    simp [serverMessage, jsOr, hv, ht]
  · intro h1 h2
    simp [serverMessage, jsOr, h1, h2]

/-- Witness for the amended claim C3: an unmapped status (418) passes
the server-supplied error field through unchanged. -/
theorem handleError_message_priority_witness :
    (handleError ⟨some ⟨418, JSON.obj [(kError, JSON.str "teapot".toList)]⟩,
      none, "transport".toList, false⟩).message = JSON.str "teapot".toList := by
  have h := handleError_message_priority 418
    (JSON.obj [(kError, JSON.str "teapot".toList)]) none "transport".toList false
  rw [h.2.2.2.2.2.2.2.2.2.2.1 (by decide)]
  exact h.2.2.2.2.2.2.2.2.2.2.2.1 (JSON.str "teapot".toList)
    (by simp +decide [getField, lookupField]) (by decide)

/-- Claim C5 fails as stated: for an unmapped status the server-supplied
message is passed through only when truthy — a 418 response with body
`{"error": ""}` yields the transport error text, not `""`. -/
theorem handleError_passthrough_cex :
    msgChars (handleError ⟨some ⟨418, JSON.obj [(kError, JSON.str [])]⟩,
      none, "transport".toList, false⟩) ≠ some [] ∧
    msgChars (handleError ⟨some ⟨418, JSON.obj [(kError, JSON.str [])]⟩,
      none, "transport".toList, false⟩) = some "transport".toList := by
  decide

/-- Claim C5 (amended): for every non-2xx response with a mapped
status, the produced ClientError carries the fixed message of the
classification table together with that statusCode (401, 403, 404, 429
fixed texts; 500/502/503/504 the server-error text; 400 the
server-supplied/transport message with `"Invalid request: "`
prepended), and for any other status the server-supplied message is
passed through unchanged whenever it is truthy (else the `message`
field, else the generic transport text). -/
theorem handleError_status_table (st : Nat) (data : JSON) (req : Option JSON)
    (emsg : Str) (nf : Bool) :
    handleError ⟨some ⟨401, data⟩, req, emsg, nf⟩ = ⟨.str msg401, some 401, some data⟩ ∧
    handleError ⟨some ⟨403, data⟩, req, emsg, nf⟩ = ⟨.str msg403, some 403, some data⟩ ∧
    handleError ⟨some ⟨404, data⟩, req, emsg, nf⟩ = ⟨.str msg404, some 404, some data⟩ ∧
    handleError ⟨some ⟨429, data⟩, req, emsg, nf⟩ = ⟨.str msg429, some 429, some data⟩ ∧
    handleError ⟨some ⟨500, data⟩, req, emsg, nf⟩ = ⟨.str msg5xx, some 500, some data⟩ ∧
    handleError ⟨some ⟨502, data⟩, req, emsg, nf⟩ = ⟨.str msg5xx, some 502, some data⟩ ∧
    handleError ⟨some ⟨503, data⟩, req, emsg, nf⟩ = ⟨.str msg5xx, some 503, some data⟩ ∧
    handleError ⟨some ⟨504, data⟩, req, emsg, nf⟩ = ⟨.str msg5xx, some 504, some data⟩ ∧
    (∀ s, serverMessage data emsg = .str s →
      handleError ⟨some ⟨400, data⟩, req, emsg, nf⟩ =
        ⟨.str (msg400P ++ s), some 400, some data⟩) ∧
    (st ∉ ([400, 401, 403, 404, 429, 500, 502, 503, 504] : List Nat) →
      ((∀ v, getField data kError = some v → truthy v = true →
        handleError ⟨some ⟨st, data⟩, req, emsg, nf⟩ = ⟨v, some st, some data⟩) ∧
      (truthyOpt (getField data kError) = false →
        ∀ w, getField data kMessage = some w → truthy w = true →
          handleError ⟨some ⟨st, data⟩, req, emsg, nf⟩ = ⟨w, some st, some data⟩) ∧
      (truthyOpt (getField data kError) = false →
        truthyOpt (getField data kMessage) = false →
          handleError ⟨some ⟨st, data⟩, req, emsg, nf⟩ = ⟨.str emsg, some st, some data⟩))) := by
  refine ⟨?_, ?_, ?_, ?_, ?_, ?_, ?_, ?_, ?_, ?_⟩
  · simp [handleError, statusMessage]
  · simp [handleError, statusMessage]
  · simp [handleError, statusMessage]
  · simp [handleError, statusMessage]
  · simp [handleError, statusMessage]
  · simp [handleError, statusMessage]
  · simp [handleError, statusMessage]
  · simp [handleError, statusMessage]
  · intro s hs
    simp [handleError, statusMessage, hs, jsToStr]
  · intro h
    simp only [List.mem_cons, List.mem_singleton, not_or] at h
    obtain ⟨h400, h401, h403, h404, h429, h500, h502, h503, h504⟩ := h
    have hmsg : handleError ⟨some ⟨st, data⟩, req, emsg, nf⟩ =
        ⟨serverMessage data emsg, some st, some data⟩ := by
      simp [handleError, statusMessage, h400, h401, h403, h404, h429, h500, h502, h503, h504]
    refine ⟨?_, ?_, ?_⟩
    · intro v hv ht
      rw [hmsg]
      simp [serverMessage, jsOr, hv, ht]
    · intro h0 w hw ht
      rw [hmsg]
      cases he : getField data kError with
      | none => simp [serverMessage, jsOr, he, hw, ht]
      | some v =>
        rw [he] at h0
        simp only [truthyOpt] at h0
        simp [serverMessage, jsOr, he, h0, hw, ht]
    · intro h0 h1
      rw [hmsg]
      cases he : getField data kError with
      | none =>
        cases hm : getField data kMessage with
        | none => simp [serverMessage, jsOr, he, hm]
        | some w =>
          rw [hm] at h1
          simp only [truthyOpt] at h1
          simp [serverMessage, jsOr, he, hm, h1]
      | some v =>
        rw [he] at h0
        simp only [truthyOpt] at h0
        cases hm : getField data kMessage with
        | none => simp [serverMessage, jsOr, he, hm, h0]
        | some w =>
          rw [hm] at h1
          simp only [truthyOpt] at h1
          simp [serverMessage, jsOr, he, hm, h0, h1]

/-- Witness for the amended claim C5: a 404 response carries the fixed
message and statusCode 404 (the simulated scenario of the spec). -/
theorem handleError_status_table_witness :
    handleError ⟨some ⟨404, JSON.null⟩, none, "transport".toList, false⟩ =
      ⟨.str msg404, some 404, some JSON.null⟩ :=
  (handleError_status_table 404 JSON.null none "transport".toList false).2.2.1

/-- Claim C9: for every failed call where the request was sent but no
response arrived, the ClientError has no statusCode, the fixed
no-response message, and the request context as raw body; for a
failure before dispatch, no statusCode and the underlying setup-error
text. -/
theorem handleError_no_response (e : AxiosErrorM) (h : e.response = none) :
    (∀ req, e.request = some req →
      handleError e = ⟨.str msgNoResponse, none, some req⟩) ∧
    (e.request = none → handleError e = ⟨.str e.message, none, none⟩) := by
  obtain ⟨resp, req, m, nf⟩ := e
  simp only at h
  subst h
  constructor
  · intro r hr
    simp only at hr
    subst hr
    rfl
  · intro hr
    simp only at hr
    subst hr
    rfl

/-- Witness for claim C9: a concrete network failure (request context
present, no response). -/
theorem handleError_no_response_witness :
    handleError ⟨none, some JSON.null, "timeout".toList, true⟩ =
      ⟨.str msgNoResponse, none, some JSON.null⟩ :=
  (handleError_no_response ⟨none, some JSON.null, "timeout".toList, true⟩ rfl).1
    JSON.null rfl

theorem runFrom_ok (attempts : Nat → Outcome) (i r : Nat) (v : JSON)
    (h : attempts i = .ok v) : runFrom attempts i r = ⟨1, [], .inl v⟩ := by
  cases r <;> simp [runFrom, h]

theorem runFrom_attempts_le (attempts : Nat → Outcome) :
    ∀ r i, (runFrom attempts i r).attemptsMade ≤ r + 1 := by
  intro r
  induction r with
  | zero => intro i; cases h : attempts i <;> simp [runFrom, h]
  | succ n ih =>
    intro i
    cases h : attempts i with
    | ok v => simp [runFrom, h]
    | err e =>
      cases hc : retryCondition e with
      | true =>
        have := ih (i + 1)
        simp only [runFrom, h, hc, if_true]
        omega
      | false => simp [runFrom, h, hc]

theorem runFrom_delays_head (attempts : Nat → Outcome) :
    ∀ r i, (runFrom attempts i r).delays = [] ∨
      ∃ t, (runFrom attempts i r).delays = backoffDelay 100 (i + 1) :: t := by
  intro r i
  cases r with
  | zero => cases h : attempts i <;> simp [runFrom, h]
  | succ n =>
    cases h : attempts i with
    | ok v => left; simp [runFrom, h]
    | err e =>
      cases hc : retryCondition e with
      | true =>
        right
        refine ⟨(runFrom attempts (i + 1) n).delays, ?_⟩
        simp [runFrom, h, hc]
      | false => left; simp [runFrom, h, hc]

theorem backoffDelay_lt (i : Nat) : backoffDelay 100 (i + 1) < backoffDelay 100 (i + 2) := by
  show 100 * 2 ^ i < 100 * 2 ^ (i + 1)
  have h : (2 : Nat) ^ i < 2 ^ (i + 1) := Nat.pow_lt_pow_right (by omega) (by omega)
  omega

theorem runFrom_delays_chain (attempts : Nat → Outcome) :
    ∀ r i, List.Chain' (· < ·) ((runFrom attempts i r).delays) := by
  intro r
  induction r with
  | zero => intro i; cases h : attempts i <;> simp [runFrom, h]
  | succ n ih =>
    intro i
    cases h : attempts i with
    | ok v => simp [runFrom, h]
    | err e =>
      cases hc : retryCondition e with
      | false => simp [runFrom, h, hc]
      | true =>
        simp only [runFrom, h, hc, if_true]
        rw [List.chain'_cons']
        refine ⟨?_, ih (i + 1)⟩
        intro y hy
        rcases runFrom_delays_head attempts n (i + 1) with hd | ⟨t, hd⟩
        · rw [hd] at hy
          simp at hy
        · rw [hd] at hy
          simp only [List.head?_cons, Option.mem_def, Option.some.injEq] at hy
          rw [← hy]
          exact backoffDelay_lt i

theorem runFrom_const_retry (e : AxiosErrorM) (he : retryCondition e = true)
    (attempts : Nat → Outcome) (ha : ∀ i, attempts i = .err e) :
    ∀ r i, runFrom attempts i r =
      ⟨r + 1, (List.range' (i + 1) r).map (backoffDelay 100), .inr (handleError e)⟩ := by
  intro r
  induction r with
  | zero => intro i; simp [runFrom, ha i, List.range']
  | succ n ih =>
    intro i
    simp [runFrom, ha i, he, ih (i + 1), List.range', show i + 1 + 1 = i + 2 from rfl]

theorem runFrom_err_forever (attempts : Nat → Outcome) (e : AxiosErrorM)
    (ha : ∀ i, attempts i = .err e) :
    ∀ r i, (runFrom attempts i r).result = .inr (handleError e) := by
  intro r
  induction r with
  | zero => intro i; simp [runFrom, ha i]
  | succ n ih =>
    intro i
    cases hc : retryCondition e with
    | true => simp [runFrom, ha i, hc, ih (i + 1)]
    | false => simp [runFrom, ha i, hc]

/-- Claim C4 (spec-modelled loop): retries happen exactly for network /
idempotent-transport failures or responses with status in
{408, 429, 500, 502, 503, 504}; no retry for any other 4xx or for
successes; at most `maxRetries` retries beyond the first attempt;
backoff delays strictly increase; and a constantly-503 server is
retried `maxRetries` times with delays 100·2^(n−1) before a ServerError
with the fixed server-error text surfaces. -/
theorem retryPolicy_spec :
    (∀ e, retryCondition e = true ↔
      (e.isNetworkOrIdempotent = true ∨
        ∃ r, e.response = some r ∧ r.status ∈ retryableStatuses)) ∧
    (∀ st data req m, 400 ≤ st → st < 500 → st ≠ 408 → st ≠ 429 →
      retryCondition ⟨some ⟨st, data⟩, req, m, false⟩ = false) ∧
    (∀ attempts i r v, attempts i = .ok v → runFrom attempts i r = ⟨1, [], .inl v⟩) ∧
    (∀ attempts maxR, (runWithRetries attempts maxR).attemptsMade ≤ maxR + 1) ∧
    (∀ attempts maxR, List.Chain' (· < ·) ((runWithRetries attempts maxR).delays)) ∧
    (∀ data req m maxR,
      runWithRetries (fun _ => .err ⟨some ⟨503, data⟩, req, m, false⟩) maxR =
        ⟨maxR + 1, (List.range' 1 maxR).map (backoffDelay 100),
          .inr ⟨.str msg5xx, some 503, some data⟩⟩) := by
  refine ⟨?_, ?_, ?_, ?_, ?_, ?_⟩
  · intro e
    obtain ⟨resp, req, m, nf⟩ := e
    cases nf with
    | true => simp [retryCondition]
    | false =>
      cases resp with
      | none => simp [retryCondition]
      | some r => simp [retryCondition, List.contains, List.elem_iff]
  · intro st data req m h1 h2 h3 h4
    have hmem : st ∉ retryableStatuses := by
      simp only [retryableStatuses, List.mem_cons, List.not_mem_nil, or_false, not_or]
      omega
    simp [retryCondition, List.contains, List.elem_iff, hmem]
  · exact fun attempts i r v h => runFrom_ok attempts i r v h
  · exact fun attempts maxR => runFrom_attempts_le attempts maxR 0
  · exact fun attempts maxR => runFrom_delays_chain attempts maxR 0
  · intro data req m maxR
    have he : retryCondition ⟨some ⟨503, data⟩, req, m, false⟩ = true := by
      simp +decide [retryCondition, retryableStatuses]
    have h := runFrom_const_retry ⟨some ⟨503, data⟩, req, m, false⟩ he
      (fun _ => .err ⟨some ⟨503, data⟩, req, m, false⟩) (fun _ => rfl) maxR 0
    rw [runWithRetries, h]
    simp [handleError, statusMessage]

/-- Witness for claim C4: a constantly-503 server with 3 retries
yields 4 attempts, strictly increasing delays 100, 200, 400, and the
fixed server-error message; and the 503 error is retryable. -/
theorem retryPolicy_spec_witness :
    retryCondition ⟨some ⟨503, JSON.null⟩, none, [], false⟩ = true ∧
    runWithRetries (fun _ => .err ⟨some ⟨503, JSON.null⟩, none, [], false⟩) 3 =
      ⟨4, [100, 200, 400], .inr ⟨.str msg5xx, some 503, some JSON.null⟩⟩ := by
  constructor
  · exact (retryPolicy_spec.1 ⟨some ⟨503, JSON.null⟩, none, [], false⟩).mpr
      (Or.inr ⟨⟨503, JSON.null⟩, rfl, by decide⟩)
  · rw [retryPolicy_spec.2.2.2.2.2 JSON.null none [] 3]
    norm_num [List.range', backoffDelay]

/-- Claim C6: `healthCheck` always returns a boolean and never raises:
`true` when the call resolves (any 2xx body, in particular a first
successful attempt), `false` whenever the pipeline ends in a
`CDSError` — for any failure whatsoever, in particular a server that
fails every attempt. -/
theorem healthCheck_absorbs (attempts : Nat → Outcome) (maxR : Nat) :
    (healthCheck attempts maxR = true ∨ healthCheck attempts maxR = false) ∧
    (∀ v, attempts 0 = .ok v → healthCheck attempts maxR = true) ∧
    (∀ v, (runWithRetries attempts maxR).result = .inl v →
      healthCheck attempts maxR = true) ∧
    (∀ e, (runWithRetries attempts maxR).result = .inr e →
      healthCheck attempts maxR = false) ∧
    (∀ e, (∀ i, attempts i = .err e) → healthCheck attempts maxR = false) := by
  refine ⟨?_, ?_, ?_, ?_, ?_⟩
  · exact (Bool.dichotomy (healthCheck attempts maxR)).symm
  · intro v hv
    simp [healthCheck, runWithRetries, runFrom_ok attempts 0 maxR v hv]
  · intro v hv
    simp [healthCheck, hv]
  · intro e he
    simp [healthCheck, he]
  · intro e he
    simp [healthCheck, runWithRetries, runFrom_err_forever attempts e he maxR 0]

/-- Witness for claim C6: a healthy server yields `true`; a server that
always answers 404 yields `false` (the error is absorbed). -/
theorem healthCheck_absorbs_witness :
    healthCheck (fun _ => .ok JSON.null) 3 = true ∧
    healthCheck (fun _ => .err ⟨some ⟨404, JSON.null⟩, none, [], false⟩) 3 = false :=
  ⟨(healthCheck_absorbs (fun _ => .ok JSON.null) 3).2.1 JSON.null rfl,
    (healthCheck_absorbs (fun _ => .err ⟨some ⟨404, JSON.null⟩, none, [], false⟩) 3).2.2.2.2
      ⟨some ⟨404, JSON.null⟩, none, [], false⟩ (fun _ => rfl)⟩

/-- Claim C7: for every query that is absent (`undefined`), empty, or
shorter than 2 characters, `getSuggestions` throws a validation
`CDSError` before any request is dispatched (`inl` is the error thrown
before network activity, `inr` the request that goes on the wire). -/
theorem getSuggestionsDispatch_validates (query : Option Str) :
    (query = none →
      getSuggestionsDispatch query = .inl ⟨.str msgQueryShort, none, none⟩) ∧
    (∀ q, query = some q → q.length < 2 →
      getSuggestionsDispatch query = .inl ⟨.str msgQueryShort, none, none⟩) := by
  constructor
  · intro h
    subst h
    rfl
  · intro q hq hlen
    subst hq
    simp [getSuggestionsDispatch, Or.inr hlen]

/-- Witness for claim C7: the one-character query `"a"` is rejected
before dispatch. -/
theorem getSuggestionsDispatch_validates_witness :
    getSuggestionsDispatch (some ['a']) = .inl ⟨.str msgQueryShort, none, none⟩ :=
  (getSuggestionsDispatch_validates (some ['a'])).2 ['a'] rfl (by decide)

/-- Claim C8: for every pair of city identifiers with either identifier
empty, `calculateDistance` throws a validation `CDSError` before any
request is dispatched. -/
theorem calculateDistanceDispatch_validates (city1Id city2Id : Str)
    (h : city1Id = [] ∨ city2Id = []) :
    calculateDistanceDispatch city1Id city2Id =
      .inl ⟨.str msgCityRequired, none, none⟩ := by
  simp [calculateDistanceDispatch, h]

/-- Witness for claim C8: `calculateDistance("", "x")` is rejected
before dispatch. -/
theorem calculateDistanceDispatch_validates_witness :
    calculateDistanceDispatch [] ['x'] = .inl ⟨.str msgCityRequired, none, none⟩ :=
  calculateDistanceDispatch_validates [] ['x'] (Or.inl rfl)

/-- Claim C10: absent or falsy `timeout` / `retries` (in particular 0)
are replaced by the defaults 30000 and 3; absent or empty `username` /
`password` become the empty string; consequently the resolved timeout
and retries are never zero. -/
theorem resolveConfig_defaults (c : CDSClientConfig) :
    ((c.timeout = none ∨ c.timeout = some 0) → (resolveConfig c).timeout = 30000) ∧
    ((c.retries = none ∨ c.retries = some 0) → (resolveConfig c).retries = 3) ∧
    ((c.username = none ∨ c.username = some []) → (resolveConfig c).username = []) ∧
    ((c.password = none ∨ c.password = some []) → (resolveConfig c).password = []) ∧
    (resolveConfig c).timeout ≠ 0 ∧
    (resolveConfig c).retries ≠ 0 := by
  obtain ⟨b, u, p, t, r⟩ := c
  refine ⟨?_, ?_, ?_, ?_, ?_, ?_⟩
  · rintro (h | h) <;> simp only at h <;> subst h <;> simp [resolveConfig, orDefaultNum]
  · rintro (h | h) <;> simp only at h <;> subst h <;> simp [resolveConfig, orDefaultNum]
  · rintro (h | h) <;> simp only at h <;> subst h <;> simp [resolveConfig, orDefaultStr]
  · rintro (h | h) <;> simp only at h <;> subst h <;> simp [resolveConfig, orDefaultStr]
  · simp only [resolveConfig, orDefaultNum]
    cases t with
    | none => norm_num
    | some q =>
      by_cases hq : q = 0
      · simp [hq]
      · simp [hq]
  · simp only [resolveConfig, orDefaultNum]
    cases r with
    | none => norm_num
    | some q =>
      by_cases hq : q = 0
      · simp [hq]
      · simp [hq]

/-- Witness for claim C10: explicit zeroes and absent credentials get
the defaults, and the resolved timeout is nonzero. -/
theorem resolveConfig_defaults_witness :
    (resolveConfig ⟨"example.com".toList, none, none, some 0, some 0⟩).timeout = 30000 ∧
    (resolveConfig ⟨"example.com".toList, none, none, some 0, some 0⟩).retries = 3 ∧
    (resolveConfig ⟨"example.com".toList, none, none, some 0, some 0⟩).username = [] ∧
    (resolveConfig ⟨"example.com".toList, none, none, some 0, some 0⟩).timeout ≠ 0 :=
  ⟨(resolveConfig_defaults _).1 (Or.inr rfl),
    (resolveConfig_defaults _).2.1 (Or.inr rfl),
    (resolveConfig_defaults _).2.2.1 (Or.inl rfl),
    (resolveConfig_defaults _).2.2.2.2.1⟩

end CDS
